import Mathlib

/-!
Verification of the staged jet-hadron correlations extraction pipeline.

This file gives a shallow embedding (over the rationals) of the parts of
the analysis code that the checked claims are about:

* jet_hadron/analysis/correlations_helpers.py
  (mixed-event normalization estimator),
* jet_hadron/analysis/correlations.py
  (stage pipeline, delta-eta subtraction, yield extraction, widths setup),
* jet_hadron/analysis/fit.py
  (reaction-plane background fit model, cost-function data selection,
  fit-error propagation).

Machine floats are modelled as rationals; the external histogram and
minimizer libraries are modelled through their interfaces (projection,
integration etc. as explicit data or abstract function parameters).
-/

deriving instance DecidableEq for Except

namespace JetHadron

/-- params.SelectedRange: an inclusive numeric range. -/
structure SelectedRange where
  min : ℚ
  max : ℚ
  deriving DecidableEq, Repr

/-- analysis_objects.TrackPtBin: the track-pt range of an analysis bin
(only the range bounds are relevant here). -/
structure TrackPtBin where
  min : ℚ
  max : ℚ
  deriving DecidableEq, Repr

/-! ## Cost-function data selection (fit.py, JetHEPFit.DefineFits)

In DefineFits the data arrays of an observable are restricted to the
near side when the observable is background dominated, and the cost
function is either an unbinned log-likelihood (which consumes only the
x array) or a chi-square regression (which consumes x, y and errors).
-/

/-- analysis_objects.CorrelationType: which region an observable is from. -/
inductive CorrelationType where
  | signal_dominated
  | background_dominated
  deriving DecidableEq, Repr

/-- The cost-function objects built in JetHEPFit.DefineFits, keeping the
data arrays they are constructed from (probfit.UnbinnedLH consumes only
the x data, probfit.Chi2Regression consumes x, y and the errors). -/
inductive CostFunction where
  | unbinnedLH (x : List ℚ)
  | chi2Regression (x y errors : List ℚ)
  deriving DecidableEq, Repr

/-- JetHEPFit.DefineFits, per observable (fit.py lines 358-392): retrieve
the data arrays, truncate them to the first half (indices below
int(len(x)/2)) when the observable is background dominated, then build
either an unbinned log-likelihood or a chi-square cost function. -/
def DefineFitsCostFunction (useLogLikelihood : Bool)
    (correlationType : CorrelationType) (x y errors : List ℚ) : CostFunction :=
  -- Restricted the background fit range: use only near-side data (dPhi < pi/2)
  let NSrange := x.length / 2
  let x' := if correlationType = .background_dominated then x.take NSrange else x
  let y' := if correlationType = .background_dominated then y.take NSrange else y
  let errors' := if correlationType = .background_dominated then errors.take NSrange else errors
  if useLogLikelihood then
    .unbinnedLH x'
  else
    .chi2Regression x' y' errors'

/-! ## Projection stage chaining (correlations.py, _run_2d_projections and
_run_1d_projections)

Only the processing options consulted and mutated by the two projection
stages are modelled; the booleans returned alongside record whether the
stage ran in compute mode. -/

/-- The processing options consulted by the projection stages
(task_config processingOptions). -/
structure ProcessingOptions where
  generate2DCorrelations : Bool
  generate1DCorrelations : Bool
  fit1DCorrelations : Bool
  deriving DecidableEq, Repr

/-- Correlations._run_2d_projections (correlations.py lines 1158-1186):
compute the 2D correlations when the option requests it or when no output
file exists; computing also forces the option for the next (1D) stage to
true. The returned boolean records whether the stage ran in compute mode. -/
def run_2d_projections (file_exists : Bool) (o : ProcessingOptions) :
    ProcessingOptions × Bool :=
  if o.generate2DCorrelations || !file_exists then
    -- Ensure we execute the next step
    ({ o with generate1DCorrelations := true }, true)
  else
    (o, false)

/-- Correlations._run_1d_projections (correlations.py lines 1492-1515):
compute the 1D correlations when the option requests it, forcing the fit
stage option to true; otherwise load them from file. -/
def run_1d_projections (o : ProcessingOptions) : ProcessingOptions × Bool :=
  if o.generate1DCorrelations then
    ({ o with fit1DCorrelations := true }, true)
  else
    (o, false)

/-! ## Mixed-event normalization estimator
(correlations_helpers.py, measure_mixed_event_normalization and
_peak_finding_objects_from_mixed_event)

The 2D mixed-event histogram is modelled with its delta-phi (x) axis as
a number of bins and its delta-eta (y) axis as a uniform binning; the
ROOT axis operations used by the estimator (FindBin, GetBinLowEdge,
GetBinUpEdge, ProjectionX, Scale) are given their standard semantics for
in-range values (bins are 1-based). -/

/-- A 2D mixed-event histogram: delta-phi on x, delta-eta on y (uniform
y binning), with the bin contents indexed by (x bin, y bin). -/
structure MixedEventHist2D where
  nx : ℕ
  y_min : ℚ
  y_bin_width : ℚ
  content : ℕ → ℤ → ℚ

/-- ROOT TAxis.FindBin on the y axis for an in-range value: the 1-based
bin whose half-open cell contains the value. -/
def MixedEventHist2D.findBinY (h : MixedEventHist2D) (v : ℚ) : ℤ :=
  ⌊(v - h.y_min) / h.y_bin_width⌋ + 1

/-- ROOT TAxis.GetBinLowEdge on the y axis. -/
def MixedEventHist2D.getBinLowEdgeY (h : MixedEventHist2D) (b : ℤ) : ℚ :=
  h.y_min + ((b : ℚ) - 1) * h.y_bin_width

/-- ROOT TAxis.GetBinUpEdge on the y axis. -/
def MixedEventHist2D.getBinUpEdgeY (h : MixedEventHist2D) (b : ℤ) : ℚ :=
  h.y_min + (b : ℚ) * h.y_bin_width

/-- ROOT TH2.ProjectionX over the inclusive y-bin range [b1, b2]: the
per-x-bin sums of the contents of those y bins. -/
def MixedEventHist2D.projectionX (h : MixedEventHist2D) (b1 b2 : ℤ) : List ℚ :=
  (List.range h.nx).map (fun i =>
    ((List.range (b2 - b1 + 1).toNat).map (fun k => h.content (i + 1) (b1 + k))).sum)

/-- pachyderm utils.moving_average: the averages of every window of n
consecutive entries (empty when the array is shorter than the window). -/
def moving_average (arr : List ℚ) (n : ℕ) : List ℚ :=
  (List.range (arr.length + 1 - n)).map (fun i => ((arr.drop i).take n).sum / n)

/-- Python max() over a list: none on an empty list (max raises). -/
def pythonMax : List ℚ → Option ℚ
  | [] => none
  | x :: xs => some (xs.foldl max x)

/-- _peak_finding_objects_from_mixed_event (correlations_helpers.py
lines 129-165): find the y bins containing eta_limits[0] + epsilon and
eta_limits[1] - epsilon, project onto the delta-phi axis over those
bins, and scale the projection by one y bin width divided by the
projected window width (the distance from the low edge of the first bin
to the up edge of the last). -/
def peak_finding_hist_array (h : MixedEventHist2D) (eta_min eta_max ε : ℚ) : List ℚ :=
  let b1 := h.findBinY (eta_min + ε)
  let b2 := h.findBinY (eta_max - ε)
  let projection_length := h.getBinUpEdgeY b2 - h.getBinLowEdgeY b1
  (h.projectionX b1 b2).map (fun v => v * (h.y_bin_width / projection_length))

/-- measure_mixed_event_normalization (correlations_helpers.py lines
167-198): take the maximum of the moving average, over a window of 36
bins, of the scaled delta-phi projection; fall back to 1 (with a
warning) when that maximum is exactly zero. Returns none when the
projection has fewer than 36 bins (Python max() raises on the then-empty
moving average). -/
def measure_mixed_event_normalization (h : MixedEventHist2D)
    (eta_min eta_max ε : ℚ) : Option ℚ :=
  let arr := peak_finding_hist_array h eta_min eta_max ε
  (pythonMax (moving_average arr 36)).map
    -- Watch out for a zero which could cause problems.
    (fun max_moving_avg => if ¬ max_moving_avg ≠ 0 then 1 else max_moving_avg)

/-! ## Stage pipeline state machine (correlations.py)

A pachyderm Histogram1D is modelled as a list of bins, each holding the
bin value together with its squared error (mirroring the y and
errors_squared arrays); subtraction is bin-wise: values subtract and the
squared errors add. -/

/-- A 1D histogram: per bin, the value and the squared error. -/
abbrev Hist1D := List (ℚ × ℚ)

/-- Histogram subtraction as provided by the histogram library: values
subtract and squared errors add, bin by bin. -/
def hist1dSub (a b : Hist1D) : Hist1D :=
  List.zipWith (fun p q => (p.1 - q.1, p.2 + q.2)) a b

/-- correlations.PedestalFitResult: the constant delta-eta pedestal fit
value with its error. -/
structure PedestalFitResult where
  value : ℚ
  error : ℚ
  deriving DecidableEq, Repr

/-- The per-bin mutable analysis state of a Correlations object: the
three stage flags, the delta-eta pedestal fit results, and the
histograms touched by the subtraction stages. The background-fit
evaluations (fit_object.evaluate_background and
calculate_background_function_errors at the bin centers of the
signal-dominated histogram) are stored as data produced by the external
reaction-plane fit package. -/
structure CorrelationsBin where
  ran_projections : Bool
  ran_fitting : Bool
  ran_post_fit_processing : Bool
  fit_objects_delta_eta_near_side : PedestalFitResult
  fit_objects_delta_eta_away_side : PedestalFitResult
  delta_phi_signal_dominated : Hist1D
  delta_phi_subtracted_signal_dominated : Hist1D
  delta_eta_near_side : Hist1D
  delta_eta_away_side : Hist1D
  delta_eta_subtracted_near_side : Hist1D
  delta_eta_subtracted_away_side : Hist1D
  fit_background_y : List ℚ
  fit_background_errors : List ℚ
  deriving DecidableEq, Repr

/-- Correlations.__init__ (correlations.py lines 368-371 and 565-568):
the stage flags start false and the delta-eta fit objects start at
value -1 with error -1; no histograms exist yet. -/
def freshCorrelationsBin : CorrelationsBin where
  ran_projections := false
  ran_fitting := false
  ran_post_fit_processing := false
  fit_objects_delta_eta_near_side := ⟨-1, -1⟩
  fit_objects_delta_eta_away_side := ⟨-1, -1⟩
  delta_phi_signal_dominated := []
  delta_phi_subtracted_signal_dominated := []
  delta_eta_near_side := []
  delta_eta_away_side := []
  delta_eta_subtracted_near_side := []
  delta_eta_subtracted_away_side := []
  fit_background_y := []
  fit_background_errors := []

/-- The constant background histogram built in
Correlations.subtract_delta_eta_correlations: the pedestal fit value in
every bin, with the squared pedestal error in every bin. -/
def backgroundPedestalHist (fit_object : PedestalFitResult) (n : ℕ) : Hist1D :=
  List.replicate n (fit_object.value, fit_object.error ^ 2)

/-- Correlations.subtract_delta_eta_correlations (correlations.py lines
1613-1641): the near-side pedestal fit is used for both the near side
and the away side; a constant background histogram at the pedestal value
and error is subtracted from each delta-eta correlation. -/
def subtract_delta_eta_correlations (b : CorrelationsBin) : CorrelationsBin :=
  -- We will use the near-side pedestal for both the near-side and away-side
  let fit_object := b.fit_objects_delta_eta_near_side
  { b with
    delta_eta_subtracted_near_side :=
      hist1dSub b.delta_eta_near_side
        (backgroundPedestalHist fit_object b.delta_eta_near_side.length),
    delta_eta_subtracted_away_side :=
      hist1dSub b.delta_eta_away_side
        (backgroundPedestalHist fit_object b.delta_eta_away_side.length) }

/-- Correlations.subtract_background_fit_function_from_signal_dominated
(correlations.py lines 1556-1576): build a histogram from the background
fit evaluated at the data points, with squared errors the squares of the
propagated fit errors, and subtract it from the signal-dominated
histogram. -/
def subtract_background_fit_function_from_signal_dominated (b : CorrelationsBin) :
    CorrelationsBin :=
  let fit_hist : Hist1D :=
    List.zipWith (fun y e => (y, e ^ 2)) b.fit_background_y b.fit_background_errors
  { b with
    delta_phi_subtracted_signal_dominated :=
      hist1dSub b.delta_phi_signal_dominated fit_hist }

/-- The manager-level processing options consulted by the fitting,
subtraction and extraction stages. -/
structure ManagerOptions where
  fit_correlations : Bool
  subtract_correlations : Bool
  extract_yields : Bool
  extract_widths : Bool
  deriving DecidableEq, Repr

/-- Which per-bin records the compute branches of the stages have
written to file in this run. -/
structure PersistedRecords where
  correlations_2d : Bool
  correlations_1d : Bool
  delta_eta_fit_results : Bool
  rpf_result : Bool
  subtracted_delta_phi : Bool
  subtracted_delta_eta : Bool
  yields : Bool
  widths : Bool
  deriving DecidableEq, Repr

/-- The histograms produced (projected, or read back from file) by the
projection stages for one bin. -/
structure ProjectionsData where
  delta_phi_signal_dominated : Hist1D
  delta_eta_near_side : Hist1D
  delta_eta_away_side : Hist1D
  deriving DecidableEq, Repr

/-- The full pipeline state for one analysis bin: the per-analysis
processing options, the bin state, and the records persisted so far. -/
structure PipelineState where
  options : ProcessingOptions
  bin : CorrelationsBin
  records : PersistedRecords
  deriving DecidableEq, Repr

/-- The pipeline operations the manager drives a bin through. External
inputs of a stage (whether the output file exists, the pedestal fit
outcome, the reaction-plane fit outcome) are carried on the operation. -/
inductive PipelineOp where
  | runProjections (file_exists : Bool) (data : ProjectionsData)
  | fitDeltaEtaCorrelations (near away : PedestalFitResult)
  | reactionPlaneFit (fit_success : Bool) (bg_y bg_errors : List ℚ)
  | subtractReactionPlaneFits
  | subtractDeltaEtaFits
  | extractYields
  | extractWidths
  deriving DecidableEq, Repr

/-- One step of the staged pipeline for a single analysis bin, following
CorrelationsManager (correlations.py):
* runProjections (lines 1534-1540 with 1158-1186, 1492-1515): run the
  2D then the 1D projections (each computing or loading according to the
  options, computing forcing the next stage option), then set
  ran_projections.
* fitDeltaEtaCorrelations (lines 1936-1958, 1542-1554): store the
  pedestal fit results; write them when computing. No precondition
  check and no flag update.
* reactionPlaneFit (lines 1960-2077): error when ran_projections is not
  set; when computing, error when the fit failed, otherwise write the
  result; store the fit components; set ran_fitting.
* subtractReactionPlaneFits (lines 2099-2157): error when ran_fitting is
  not set; when computing, subtract and write the subtracted delta-phi
  record; set ran_post_fit_processing.
* subtractDeltaEtaFits (lines 2159-2182): when computing, subtract and
  write the subtracted delta-eta record. No precondition check and no
  flag update.
* extractYields / extractWidths (lines 2191-2259): error when
  ran_post_fit_processing is not set; when computing, write the
  extracted values. -/
def runPipelineOp (mo : ManagerOptions) : PipelineOp → PipelineState →
    Except String PipelineState
  | .runProjections file_exists data, s =>
    let r2d := run_2d_projections file_exists s.options
    let r1d := run_1d_projections r2d.1
    .ok ⟨r1d.1,
      { s.bin with
        ran_projections := true
        delta_phi_signal_dominated := data.delta_phi_signal_dominated
        delta_eta_near_side := data.delta_eta_near_side
        delta_eta_away_side := data.delta_eta_away_side },
      { s.records with
        correlations_2d := s.records.correlations_2d || r2d.2
        correlations_1d := s.records.correlations_1d || r1d.2 }⟩
  | .fitDeltaEtaCorrelations near away, s =>
    .ok ⟨s.options,
      { s.bin with
        fit_objects_delta_eta_near_side := near
        fit_objects_delta_eta_away_side := away },
      { s.records with
        delta_eta_fit_results := s.records.delta_eta_fit_results || mo.fit_correlations }⟩
  | .reactionPlaneFit fit_success bg_y bg_errors, s =>
    if !s.bin.ran_projections then
      .error "Hists must be projected before running the fit."
    else if mo.fit_correlations && !fit_success then
      .error "Fit failed"
    else
      .ok ⟨s.options,
        { s.bin with
          fit_background_y := bg_y
          fit_background_errors := bg_errors
          ran_fitting := true },
        { s.records with
          rpf_result := s.records.rpf_result || mo.fit_correlations }⟩
  | .subtractReactionPlaneFits, s =>
    if !s.bin.ran_fitting then
      .error "Must run the fitting before subtracting!"
    else if mo.subtract_correlations then
      .ok ⟨s.options,
        { subtract_background_fit_function_from_signal_dominated s.bin with
          ran_post_fit_processing := true },
        { s.records with subtracted_delta_phi := true }⟩
    else
      .ok ⟨s.options, { s.bin with ran_post_fit_processing := true }, s.records⟩
  | .subtractDeltaEtaFits, s =>
    if mo.subtract_correlations then
      .ok ⟨s.options, subtract_delta_eta_correlations s.bin,
        { s.records with subtracted_delta_eta := true }⟩
    else
      .ok s
  | .extractYields, s =>
    if !s.bin.ran_post_fit_processing then
      .error "Must run the post fit processing step before extracting yields!"
    else
      .ok ⟨s.options, s.bin,
        { s.records with yields := s.records.yields || mo.extract_yields }⟩
  | .extractWidths, s =>
    if !s.bin.ran_post_fit_processing then
      .error "Must run the post fit processing step before extracting widths!"
    else
      .ok ⟨s.options, s.bin,
        { s.records with widths := s.records.widths || mo.extract_widths }⟩

/-! ## Reaction-plane background-fit model (fit.py)

The background model uses floating-point cosine, sine and pi from the
math libraries; these external routines are modelled as an abstract
structure of trigonometric operations, so every identity proved below
holds whatever numeric approximations they return. -/

/-- params.ReactionPlaneOrientation as dispatched on in fit.py. -/
inductive ReactionPlaneOrientation where
  | all
  | in_plane
  | mid_plane
  | out_of_plane
  deriving DecidableEq, Repr

/-- The numeric trigonometric routines and the pi constant consumed by
the fit model (math.cos, math.sin, np.pi). -/
structure TrigOps where
  cos : ℚ → ℚ
  sin : ℚ → ℚ
  pi : ℚ

/-- The orientation-resolution parameters R22 through R82 read from the
fit configuration. -/
structure ResolutionParameters where
  R22 : ℚ
  R42 : ℚ
  R62 : ℚ
  R82 : ℚ
  deriving DecidableEq, Repr

/-- Fourier (fit.py lines 808-815): the plain truncated Fourier series
BG * (1 + 2 v1 cos x + 2 v2_t v2_a cos 2x + 2 v3 cos 3x
+ 2 v4_t v4_a cos 4x). -/
def Fourier (t : TrigOps) (x BG v2_t v2_a v4_t v4_a v1 v3 : ℚ) : ℚ :=
  BG * (1 + 2 * v1 * t.cos x + 2 * v2_t * v2_a * t.cos (2 * x) +
    2 * v3 * t.cos (3 * x) + 2 * v4_t * v4_a * t.cos (4 * x))

/-- Background (fit.py lines 785-806): the RPF background for a
non-inclusive orientation class, re-deriving effective v2 and v4
harmonics and the pedestal from the event-plane bin center phi, its
half-width c and the resolution parameters, then delegating to the
Fourier series. -/
def Background (t : TrigOps) (x phi c : ℚ) (rp : ResolutionParameters)
    (B v2_t v2_a v4_t v4_a v1 v3 : ℚ) : ℚ :=
  let R22 := rp.R22
  let R42 := rp.R42
  let R62 := rp.R62
  let R82 := rp.R82
  let num := v2_t + t.cos (2 * phi) * t.sin (2 * c) / (2 * c) * R22 +
    v4_t * t.cos (2 * phi) * t.sin (2 * c) / (2 * c) * R22 +
    v2_t * t.cos (4 * phi) * t.sin (4 * c) / (4 * c) * R42 +
    v4_t * t.cos (6 * phi) * t.sin (6 * c) / (6 * c) * R62
  let den := 1 + 2 * v2_t * t.cos (2 * phi) * t.sin (2 * c) / (2 * c) * R22 +
    2 * v4_t * t.cos (4 * phi) * t.sin (4 * c) / (4 * c) * R42
  let v2R := num / den
  let num2 := v4_t + t.cos (4 * phi) * t.sin (4 * c) / (4 * c) * R42 +
    v2_t * t.cos (2 * phi) * t.sin (2 * c) / (2 * c) * R22 +
    v2_t * t.cos (6 * phi) * t.sin (6 * c) / (6 * c) * R62 +
    v4_t * t.cos (8 * phi) * t.sin (8 * c) / (8 * c) * R82
  let v4R := num2 / den
  let BR := B * den * c * 2 / t.pi
  -- In the case of mid-plane, it has 4 regions instead of 2
  let factor : ℚ := if c = t.pi / 12 then 2 else 1
  Fourier t x (BR * factor) v2R v2_a v4R v4_a v1 v3

/-- BackgroundWrapperEP (fit.py lines 749-783): fixes the event-plane
bin center, half-width and resolution parameters of the background
function. -/
def BackgroundWrapperEP (t : TrigOps) (phi c : ℚ) (rp : ResolutionParameters) :
    ℚ → ℚ → ℚ → ℚ → ℚ → ℚ → ℚ → ℚ → ℚ :=
  fun x B v2_t v2_a v4_t v4_a v1 v3 => Background t x phi c rp B v2_t v2_a v4_t v4_a v1 v3

/-- GetBackgroundDominatedFitFunction (fit.py lines 690-721): the
inclusive (all-angles) orientation class uses the plain Fourier series;
the other classes use the RPF background with their bin center phiS and
half-width c. -/
def GetBackgroundDominatedFitFunction (t : TrigOps) (rp : ResolutionParameters) :
    ReactionPlaneOrientation → ℚ → ℚ → ℚ → ℚ → ℚ → ℚ → ℚ → ℚ → ℚ
  | .all => Fourier t
  | .in_plane => BackgroundWrapperEP t 0 (t.pi / 6) rp
  | .mid_plane => BackgroundWrapperEP t (t.pi / 4) (t.pi / 12) rp
  | .out_of_plane => BackgroundWrapperEP t (t.pi / 2) (t.pi / 6) rp

/-! ## Fit-error propagation (fit.py, JetHEPFit.CalculateRPFError)

The fit function enters the error propagation only through
probfit.describe (its ordered argument names) and through the numeric
gradient numdifftools computes for it; both are modelled as data: the
parameter-name list (without x, which the code removes) and the
gradient vector over the full argument list (x first, then the
parameters in order). The fit record supplies the parameter values, the
fix_<name> flags and the covariance matrix. -/

/-- JetHEPFit.GetArgsForFunc (fit.py lines 632-654): the ordered
arguments of a fit-function call: x first, then every described
parameter at its stored fit value. -/
def GetArgsForFunc (names : List String) (values : String → ℚ) (xValue : ℚ) :
    List (String × ℚ) :=
  ("x", xValue) :: names.map (fun n => (n, values n))

/-- The funcArgs list of CalculateRPFError (fit.py lines 570-582): the
described parameters with every parameter removed whose fix_<name>
entry in the fit record is true. -/
def freeFuncArgs (names : List String) (isFixed : String → Bool) : List String :=
  names.filter (fun n => !isFixed n)

/-- The Python dict lookup argsForFuncCall[name]. -/
def argValue (args : List (String × ℚ)) (n : String) : ℚ :=
  ((args.find? (fun p => p.1 == n)).map Prod.snd).getD 0

/-- The squared error at one evaluation point as computed by
JetHEPFit.CalculateRPFError (fit.py lines 592-621): a double sum over
the free parameters of gradient component times gradient component
times covariance entry. The code locates each gradient component with
listOfArgsForFuncCall.index(argsForFuncCall[iName]): it looks the
parameter VALUE up in the list of argument values, so it uses the index
of the first argument holding an equal value. The function returns the
square root of this quantity. -/
def CalculateRPFErrorSqAtPoint (names : List String) (values : String → ℚ)
    (isFixed : String → Bool) (xValue : ℚ) (grad : List ℚ)
    (cov : String → String → ℚ) : ℚ :=
  let argsForFuncCall := GetArgsForFunc names values xValue
  let funcArgs := freeFuncArgs names isFixed
  let listOfArgs := argsForFuncCall.map Prod.snd
  (funcArgs.map (fun iName =>
    (funcArgs.map (fun jName =>
      grad.getD (listOfArgs.indexOf (argValue argsForFuncCall iName)) 0 *
      grad.getD (listOfArgs.indexOf (argValue argsForFuncCall jName)) 0 *
      cov iName jName)).sum)).sum

/-- The squared error the claim describes: the double sum over free
parameter pairs of the gradient components at each parameter's own
position in the argument list, times the covariance entry. -/
def specRPFErrorSqAtPoint (names : List String) (isFixed : String → Bool)
    (grad : List ℚ) (cov : String → String → ℚ) : ℚ :=
  let argNames := "x" :: names
  let funcArgs := freeFuncArgs names isFixed
  (funcArgs.map (fun iName =>
    (funcArgs.map (fun jName =>
      grad.getD (argNames.indexOf iName) 0 *
      grad.getD (argNames.indexOf jName) 0 *
      cov iName jName)).sum)).sum

/-! ## Yield extraction (correlations.py, _extract_yield_from_hist and
extract_yields)

A subtracted histogram only enters this stage through its integral
operation, which is therefore modelled as the histogram's interface:
given the bounds, it returns the integral value and its error. -/

/-- analysis_objects.ExtractedObservable: a (value, error) pair. -/
structure ExtractedObservable where
  value : ℚ
  error : ℚ
  deriving DecidableEq, Repr

/-- A histogram as consumed by yield extraction: its integral operation
(pachyderm Histogram1D.integral), mapping (min_value, max_value) to the
integral value and error. -/
structure YieldHist where
  integral : ℚ → ℚ → ℚ × ℚ

/-- Correlations._extract_yield_from_hist (correlations.py lines
1643-1668): integrate the histogram over central_value plus or minus
yield_limit (epsilon-adjusted inward at both bounds), then divide value
and error by the track-pt bin width. -/
def extract_yield_from_hist (track_pt : TrackPtBin) (hist : YieldHist)
    (central_value yield_limit ε : ℚ) : ExtractedObservable :=
  let res := hist.integral (central_value - yield_limit + ε) (central_value + yield_limit - ε)
  -- Scale by track pt bin width
  let track_pt_bin_width := track_pt.max - track_pt.min
  ⟨res.1 / track_pt_bin_width, res.2 / track_pt_bin_width⟩

/-- correlations.CorrelationYields: the near- and away-side yields. -/
structure CorrelationYields where
  near_side : ExtractedObservable
  away_side : ExtractedObservable
  deriving DecidableEq, Repr

/-- Correlations.extract_yields (correlations.py lines 1670-1702): the
delta-phi yields are extracted from the subtracted signal-dominated
histogram at centers 0 (near side) and pi (away side) with the
configured delta-phi limit; the delta-eta yields are extracted from the
respective subtracted delta-eta histograms, both at center 0, with the
configured delta-eta limit. -/
def extract_yields_obs (track_pt : TrackPtBin) (pi : ℚ)
    (delta_phi_yield_limit delta_eta_yield_limit ε : ℚ)
    (sub_phi_signal_dominated sub_eta_near_side sub_eta_away_side : YieldHist) :
    CorrelationYields × CorrelationYields :=
  (⟨extract_yield_from_hist track_pt sub_phi_signal_dominated 0 delta_phi_yield_limit ε,
    extract_yield_from_hist track_pt sub_phi_signal_dominated pi delta_phi_yield_limit ε⟩,
   ⟨extract_yield_from_hist track_pt sub_eta_near_side 0 delta_eta_yield_limit ε,
    extract_yield_from_hist track_pt sub_eta_away_side 0 delta_eta_yield_limit ε⟩)

/-! ## Width-extraction fit objects built at construction
(correlations.py, Correlations.__init__, lines 373-402 and 495-561) -/

/-- fitting.FitPedestalWithExtendedGaussian as constructed in
Correlations.__init__: its fit range and the user arguments passed. -/
structure FitPedestalWithExtendedGaussian where
  fit_range : SelectedRange
  mean : ℚ
  fix_mean : Bool
  width : ℚ
  limit_width : ℚ × ℚ
  deriving DecidableEq, Repr

/-- extracted.ExtractedWidth as constructed in Correlations.__init__:
the recorded properties (here, the fit_range entry of the properties
dict) and the fit object. -/
structure ExtractedWidth where
  properties_fit_range : SelectedRange
  fit_obj : FitPedestalWithExtendedGaussian
  deriving DecidableEq, Repr

/-- correlations.CorrelationWidths: near- and away-side width fits. -/
structure CorrelationWidths where
  near_side : ExtractedWidth
  away_side : ExtractedWidth
  deriving DecidableEq, Repr

/-- The signal-dominated eta region of Correlations.__init__ (lines
375-379): the configured range, as given. -/
def signal_dominated_eta_region (sd : ℚ × ℚ) : SelectedRange :=
  ⟨sd.1, sd.2⟩

/-- The near-side phi region of Correlations.__init__ (lines 385-394):
the configured values multiplied by pi. -/
def near_side_phi_region (pi : ℚ) (ns : ℚ × ℚ) : SelectedRange :=
  ⟨pi * ns.1, pi * ns.2⟩

/-- The away-side phi region of Correlations.__init__ (lines 395-402):
the configured values multiplied by pi and shifted by pi. -/
def away_side_phi_region (pi : ℚ) (aw : ℚ × ℚ) : SelectedRange :=
  ⟨pi + pi * aw.1, pi + pi * aw.2⟩

/-- widths_delta_phi of Correlations.__init__ (lines 495-526): the
near-side fit object uses the near-side phi region; the away-side
properties record the away-side phi region but its fit object is
constructed with the near-side phi region as its fit range. -/
def init_widths_delta_phi (pi : ℚ) (ns aw : ℚ × ℚ) : CorrelationWidths where
  near_side :=
    { properties_fit_range := near_side_phi_region pi ns
      fit_obj :=
        { fit_range := near_side_phi_region pi ns
          mean := 0, fix_mean := true, width := 15/100, limit_width := (5/100, 1) } }
  away_side :=
    { properties_fit_range := away_side_phi_region pi aw
      fit_obj :=
        { fit_range := near_side_phi_region pi ns
          mean := pi, fix_mean := true, width := 3/10, limit_width := (5/100, 3/2) } }

/-- widths_delta_eta of Correlations.__init__ (lines 527-561): both
sides record the signal-dominated eta region in their properties; the
near-side fit object uses that eta region as its fit range, but the
away-side fit object is constructed with the near-side phi region as
its fit range. -/
def init_widths_delta_eta (pi : ℚ) (ns sd : ℚ × ℚ) : CorrelationWidths where
  near_side :=
    { properties_fit_range := signal_dominated_eta_region sd
      fit_obj :=
        { fit_range := signal_dominated_eta_region sd
          mean := 0, fix_mean := true, width := 15/100, limit_width := (5/100, 1) } }
  away_side :=
    { properties_fit_range := signal_dominated_eta_region sd
      fit_obj :=
        { fit_range := near_side_phi_region pi ns
          mean := 0, fix_mean := true, width := 3/10, limit_width := (5/100, 3/2) } }

/-- A concrete bin whose projections ran but whose delta-eta pedestal
fit has not run in this run: the pedestal fit objects still hold their
construction-time values. -/
def binBeforePedestalFit : CorrelationsBin :=
  { freshCorrelationsBin with
    ran_projections := true
    delta_eta_near_side := [(3, 1)]
    delta_eta_away_side := [(2, 1)] }

/-- A concrete 2D mixed-event histogram: 36 delta-phi bins, one
delta-eta bin covering [-1, 1], every cell holding 1. -/
def witnessMixedEvent : MixedEventHist2D where
  nx := 36
  y_min := -1
  y_bin_width := 2
  content := fun _ _ => 1

/-- C6: for a background-dominated observable the cost function is built
from the data arrays truncated to the first half (indices below
int(len(x)/2), the near side), while a signal-dominated observable uses
the full arrays: the background cost function equals the signal-type
cost function applied to the truncated arrays, and the signal-dominated
cost function keeps the full data. -/
theorem background_fit_uses_first_half_of_data
    (useLogLikelihood : Bool) (x y errors : List ℚ) :
    DefineFitsCostFunction useLogLikelihood .background_dominated x y errors =
      DefineFitsCostFunction useLogLikelihood .signal_dominated
        (x.take (x.length / 2)) (y.take (x.length / 2)) (errors.take (x.length / 2)) ∧
    DefineFitsCostFunction useLogLikelihood .signal_dominated x y errors =
      (if useLogLikelihood then .unbinnedLH x else .chi2Regression x y errors) := by
  constructor
  · cases useLogLikelihood <;> simp [DefineFitsCostFunction]
  · cases useLogLikelihood <;> simp [DefineFitsCostFunction]

/-- C8: if the 2D projection stage runs in compute mode, then the 1D
projection stage run on the resulting options also runs in compute mode,
whatever the configured 1D policy was. -/
theorem compute_2d_forces_compute_1d (file_exists : Bool) (o : ProcessingOptions)
    (h : (run_2d_projections file_exists o).2 = true) :
    (run_1d_projections (run_2d_projections file_exists o).1).2 = true := by
  by_cases h2 : (o.generate2DCorrelations || !file_exists) = true
  · simp [run_2d_projections, run_1d_projections, h2]
  · simp [run_2d_projections, h2] at h

/-- Witness for C8 at a concrete input: with the 1D compute option
configured off but the 2D stage computing (no file exists), the 1D stage
still computes. -/
theorem compute_2d_forces_compute_1d_witness :
    (run_2d_projections false ⟨false, false, false⟩).2 = true ∧
    (run_1d_projections (run_2d_projections false ⟨false, false, false⟩).1).2 = true :=
  ⟨by decide, compute_2d_forces_compute_1d false ⟨false, false, false⟩ (by decide)⟩

/-- Subtracting a constant histogram, bin by bin. -/
theorem hist1dSub_const (xs : Hist1D) (c : ℚ × ℚ) :
    hist1dSub xs (List.replicate xs.length c) =
      xs.map (fun p => (p.1 - c.1, p.2 + c.2)) := by
  induction xs with
  | nil => rfl
  | cons x xs ih =>
    simpa [hist1dSub, List.replicate_succ] using ih

/-- C3: the delta-eta subtraction subtracts the constant background
histogram built from the near-side pedestal fit from both the near-side
and the away-side correlation: every subtracted bin is the data value
minus the near-side pedestal value, and every subtracted squared error
is the data squared error plus the square of the near-side pedestal
error (so the error is the quadrature sum of the data error and the
pedestal error). -/
theorem delta_eta_subtraction_uses_near_side_pedestal (b : CorrelationsBin) :
    (subtract_delta_eta_correlations b).delta_eta_subtracted_near_side =
      b.delta_eta_near_side.map
        (fun p => (p.1 - b.fit_objects_delta_eta_near_side.value,
                   p.2 + b.fit_objects_delta_eta_near_side.error ^ 2)) ∧
    (subtract_delta_eta_correlations b).delta_eta_subtracted_away_side =
      b.delta_eta_away_side.map
        (fun p => (p.1 - b.fit_objects_delta_eta_near_side.value,
                   p.2 + b.fit_objects_delta_eta_near_side.error ^ 2)) := by
  constructor
  · simpa [subtract_delta_eta_correlations, backgroundPedestalHist] using
      hist1dSub_const b.delta_eta_near_side
        (b.fit_objects_delta_eta_near_side.value,
         b.fit_objects_delta_eta_near_side.error ^ 2)
  · simpa [subtract_delta_eta_correlations, backgroundPedestalHist] using
      hist1dSub_const b.delta_eta_away_side
        (b.fit_objects_delta_eta_near_side.value,
         b.fit_objects_delta_eta_near_side.error ^ 2)

/-- C7: the three stage flags start false at construction, and every
pipeline operation that succeeds leaves each flag unchanged or sets it
to true; no operation resets a flag from true back to false. -/
theorem stage_flags_monotonic :
    (freshCorrelationsBin.ran_projections = false ∧
     freshCorrelationsBin.ran_fitting = false ∧
     freshCorrelationsBin.ran_post_fit_processing = false) ∧
    ∀ (mo : ManagerOptions) (op : PipelineOp) (s s' : PipelineState),
      runPipelineOp mo op s = .ok s' →
        (s.bin.ran_projections = true → s'.bin.ran_projections = true) ∧
        (s.bin.ran_fitting = true → s'.bin.ran_fitting = true) ∧
        (s.bin.ran_post_fit_processing = true → s'.bin.ran_post_fit_processing = true) := by
  refine ⟨⟨rfl, rfl, rfl⟩, ?_⟩
  intro mo op s s' h
  cases op <;>
    simp only [runPipelineOp] at h <;>
    (try split at h) <;>
    (try split at h) <;>
    first
      | exact Except.noConfusion h
      | (injection h with h
         subst h
         simp_all [subtract_delta_eta_correlations,
           subtract_background_fit_function_from_signal_dominated])

/-- Witness for C7: a concrete successful operation (the delta-eta
subtraction in load mode) preserves the flags of a concrete state. -/
theorem stage_flags_monotonic_witness :
    runPipelineOp ⟨false, false, false, false⟩ .subtractDeltaEtaFits
        ⟨⟨false, false, false⟩, freshCorrelationsBin,
         ⟨false, false, false, false, false, false, false, false⟩⟩ =
      .ok ⟨⟨false, false, false⟩, freshCorrelationsBin,
        ⟨false, false, false, false, false, false, false, false⟩⟩ ∧
    (freshCorrelationsBin.ran_projections = true →
      freshCorrelationsBin.ran_projections = true) :=
  ⟨by decide,
   (stage_flags_monotonic.2 ⟨false, false, false, false⟩ .subtractDeltaEtaFits
      ⟨⟨false, false, false⟩, freshCorrelationsBin,
       ⟨false, false, false, false, false, false, false, false⟩⟩
      ⟨⟨false, false, false⟩, freshCorrelationsBin,
       ⟨false, false, false, false, false, false, false, false⟩⟩ (by decide)).1⟩

/-- Counterexample to C2 as stated: running the delta-eta subtraction
stage in compute mode on a bin whose delta-eta pedestal fit has not
completed in this run does not raise any error, and it does persist a
subtracted delta-eta record for that bin (the stage performs no
precondition check; it silently subtracts the construction-time pedestal
value of -1). -/
theorem delta_eta_subtraction_runs_without_pedestal_fit :
    runPipelineOp ⟨true, true, true, true⟩ .subtractDeltaEtaFits
        ⟨⟨true, true, true⟩, binBeforePedestalFit,
         ⟨false, false, false, false, false, false, false, false⟩⟩ =
      .ok ⟨⟨true, true, true⟩, subtract_delta_eta_correlations binBeforePedestalFit,
        ⟨false, false, false, false, false, true, false, false⟩⟩ ∧
    (subtract_delta_eta_correlations binBeforePedestalFit).delta_eta_subtracted_near_side =
      [(4, 2)] := by
  constructor
  · norm_num [runPipelineOp, subtract_delta_eta_correlations, binBeforePedestalFit,
      freshCorrelationsBin, hist1dSub, backgroundPedestalHist]
  · norm_num [subtract_delta_eta_correlations, binBeforePedestalFit,
      freshCorrelationsBin, hist1dSub, backgroundPedestalHist]

/-- C2 amended: the delta-phi subtraction stage raises an error (and so
persists nothing for that bin) whenever the reaction-plane fit has not
completed for that bin in this run; the delta-eta subtraction stage, by
contrast, performs no precondition check at all: in compute mode it
always succeeds and persists a subtracted delta-eta record, whether or
not the pedestal fit has completed. -/
theorem subtraction_stage_preconditions :
    (∀ (mo : ManagerOptions) (s : PipelineState),
      s.bin.ran_fitting = false →
        runPipelineOp mo .subtractReactionPlaneFits s =
          .error "Must run the fitting before subtracting!") ∧
    (∀ (mo : ManagerOptions) (s : PipelineState),
      mo.subtract_correlations = true →
        runPipelineOp mo .subtractDeltaEtaFits s =
          .ok ⟨s.options, subtract_delta_eta_correlations s.bin,
            { s.records with subtracted_delta_eta := true }⟩) := by
  constructor
  · intro mo s h
    simp [runPipelineOp, h]
  · intro mo s h
    simp [runPipelineOp, h]

/-- Witness for the amended C2 at concrete inputs: on a fresh bin the
delta-phi subtraction errors, and in compute mode the delta-eta
subtraction succeeds and persists its record. -/
theorem subtraction_stage_preconditions_witness :
    (freshCorrelationsBin.ran_fitting = false ∧
     runPipelineOp ⟨true, true, true, true⟩ .subtractReactionPlaneFits
         ⟨⟨true, true, true⟩, freshCorrelationsBin,
          ⟨false, false, false, false, false, false, false, false⟩⟩ =
       .error "Must run the fitting before subtracting!") ∧
    runPipelineOp ⟨true, true, true, true⟩ .subtractDeltaEtaFits
        ⟨⟨true, true, true⟩, freshCorrelationsBin,
         ⟨false, false, false, false, false, false, false, false⟩⟩ =
      .ok ⟨⟨true, true, true⟩, subtract_delta_eta_correlations freshCorrelationsBin,
        ⟨false, false, false, false, false, true, false, false⟩⟩ :=
  ⟨⟨rfl,
    subtraction_stage_preconditions.1 ⟨true, true, true, true⟩
      ⟨⟨true, true, true⟩, freshCorrelationsBin,
       ⟨false, false, false, false, false, false, false, false⟩⟩ rfl⟩,
   subtraction_stage_preconditions.2 ⟨true, true, true, true⟩
      ⟨⟨true, true, true⟩, freshCorrelationsBin,
       ⟨false, false, false, false, false, false, false, false⟩⟩ rfl⟩

/-- C1: the mixed-event normalization factor is the maximum of the
moving average, over a fixed window of 36 bins, of the delta-phi
projection of the mixed-event histogram within the eta window, the
projection being scaled by the ratio of one delta-eta bin width to the
projected window width; when that maximum is exactly zero the factor
falls back to 1 (with a warning), so the returned factor is never
zero. -/
theorem mixed_event_normalization_max_of_moving_average
    (h : MixedEventHist2D) (eta_min eta_max ε r : ℚ)
    (hr : measure_mixed_event_normalization h eta_min eta_max ε = some r) :
    peak_finding_hist_array h eta_min eta_max ε =
      (h.projectionX (h.findBinY (eta_min + ε)) (h.findBinY (eta_max - ε))).map
        (fun v => v * (h.y_bin_width /
          (h.getBinUpEdgeY (h.findBinY (eta_max - ε)) -
           h.getBinLowEdgeY (h.findBinY (eta_min + ε))))) ∧
    (∃ m, pythonMax (moving_average (peak_finding_hist_array h eta_min eta_max ε) 36) =
        some m ∧ r = if m = 0 then 1 else m) ∧
    r ≠ 0 := by
  refine ⟨rfl, ?_⟩
  simp only [measure_mixed_event_normalization, Option.map_eq_some'] at hr
  obtain ⟨m, hpm, hfm⟩ := hr
  by_cases hm : m = 0
  · refine ⟨⟨m, hpm, ?_⟩, ?_⟩
    · rw [← hfm]; simp [hm]
    · rw [← hfm]; simp [hm]
  · refine ⟨⟨m, hpm, ?_⟩, ?_⟩
    · rw [← hfm]; simp [hm]
    · rw [← hfm]; simp [hm]

/-- Witness for C1 at a concrete input: a 36-bin mixed-event histogram
uniformly filled with 1 on a single delta-eta bin gives normalization
factor 1, which is nonzero. -/
theorem mixed_event_normalization_max_of_moving_average_witness :
    measure_mixed_event_normalization witnessMixedEvent (-3/10) (3/10) (1/10) = some 1 ∧
    (1 : ℚ) ≠ 0 := by
  have hr1 : List.range 1 = [0] := by decide
  have hproj : witnessMixedEvent.projectionX 1 1 = List.replicate 36 1 := by
    rw [MixedEventHist2D.projectionX]
    have h1 : ((1 : ℤ) - 1 + 1).toNat = 1 := by decide
    simp only [h1, hr1, List.map_cons, List.map_nil, List.sum_cons,
      List.sum_nil, witnessMixedEvent, add_zero]
    rw [List.map_const', List.length_range]
    simp
  have harr : peak_finding_hist_array witnessMixedEvent (-3/10) (3/10) (1/10) =
      List.replicate 36 1 := by
    rw [peak_finding_hist_array]
    have hb1 : witnessMixedEvent.findBinY (-3/10 + 1/10) = 1 := by
      norm_num [MixedEventHist2D.findBinY, witnessMixedEvent]
    have hb2 : witnessMixedEvent.findBinY (3/10 - 1/10) = 1 := by
      norm_num [MixedEventHist2D.findBinY, witnessMixedEvent]
    rw [hb1, hb2, hproj, List.map_replicate]
    norm_num [MixedEventHist2D.getBinUpEdgeY, MixedEventHist2D.getBinLowEdgeY,
      witnessMixedEvent]
  have hEval : measure_mixed_event_normalization witnessMixedEvent
      (-3/10) (3/10) (1/10) = some 1 := by
    rw [measure_mixed_event_normalization]
    rw [harr]
    have hma : moving_average (List.replicate 36 (1 : ℚ)) 36 = [1] := by
      rw [moving_average]
      norm_num [List.sum_replicate, hr1]
    rw [hma]
    simp [pythonMax]
  exact ⟨hEval,
    (mixed_event_normalization_max_of_moving_average witnessMixedEvent
      (-3/10) (3/10) (1/10) 1 hEval).2.2⟩

/-- C5: the background fit function for the inclusive (all-angles)
orientation class is the plain Fourier series, and at v1 = 0 and v3 = 0
it reduces, for every x and parameter values, to
BG * (1 + 2 v2_t v2_a cos 2x + 2 v4_t v4_a cos 4x) with the matching
pedestal, whatever the trigonometric routines and resolution parameters
are. -/
theorem inclusive_background_is_plain_fourier (t : TrigOps) (rp : ResolutionParameters) :
    GetBackgroundDominatedFitFunction t rp .all = Fourier t ∧
    ∀ x BG v2_t v2_a v4_t v4_a : ℚ,
      GetBackgroundDominatedFitFunction t rp .all x BG v2_t v2_a v4_t v4_a 0 0 =
        BG * (1 + 2 * v2_t * v2_a * t.cos (2 * x) + 2 * v4_t * v4_a * t.cos (4 * x)) := by
  refine ⟨rfl, ?_⟩
  intro x BG v2_t v2_a v4_t v4_a
  show Fourier t x BG v2_t v2_a v4_t v4_a 0 0 = _
  rw [Fourier]
  ring

/-- C9: for each side, the yield is the histogram integral over
[center - limit + epsilon, center + limit - epsilon] with value and
error both divided by the track-pt bin width; the centers are 0 and pi
for delta-phi (both from the subtracted signal-dominated histogram) and
0 and 0 for delta-eta. -/
theorem yields_integrate_and_scale_by_track_pt_width
    (track_pt : TrackPtBin) (pi L_phi L_eta ε : ℚ)
    (sub_phi sub_eta_ns sub_eta_as : YieldHist) :
    (extract_yields_obs track_pt pi L_phi L_eta ε sub_phi sub_eta_ns sub_eta_as).1.near_side =
      ⟨(sub_phi.integral (0 - L_phi + ε) (0 + L_phi - ε)).1 / (track_pt.max - track_pt.min),
       (sub_phi.integral (0 - L_phi + ε) (0 + L_phi - ε)).2 / (track_pt.max - track_pt.min)⟩ ∧
    (extract_yields_obs track_pt pi L_phi L_eta ε sub_phi sub_eta_ns sub_eta_as).1.away_side =
      ⟨(sub_phi.integral (pi - L_phi + ε) (pi + L_phi - ε)).1 / (track_pt.max - track_pt.min),
       (sub_phi.integral (pi - L_phi + ε) (pi + L_phi - ε)).2 / (track_pt.max - track_pt.min)⟩ ∧
    (extract_yields_obs track_pt pi L_phi L_eta ε sub_phi sub_eta_ns sub_eta_as).2.near_side =
      ⟨(sub_eta_ns.integral (0 - L_eta + ε) (0 + L_eta - ε)).1 / (track_pt.max - track_pt.min),
       (sub_eta_ns.integral (0 - L_eta + ε) (0 + L_eta - ε)).2 / (track_pt.max - track_pt.min)⟩ ∧
    (extract_yields_obs track_pt pi L_phi L_eta ε sub_phi sub_eta_ns sub_eta_as).2.away_side =
      ⟨(sub_eta_as.integral (0 - L_eta + ε) (0 + L_eta - ε)).1 / (track_pt.max - track_pt.min),
       (sub_eta_as.integral (0 - L_eta + ε) (0 + L_eta - ε)).2 / (track_pt.max - track_pt.min)⟩ :=
  ⟨rfl, rfl, rfl, rfl⟩

/-- C10: the away-side width-extraction fit objects built at
construction use the near-side phi region as their fit range rather
than their own side's region, while their recorded properties list the
away-side phi region (delta-phi) and the signal-dominated eta region
(delta-eta) respectively. -/
theorem away_side_width_fit_objects_use_near_side_range
    (pi : ℚ) (ns aw sd : ℚ × ℚ) :
    (init_widths_delta_phi pi ns aw).away_side.fit_obj.fit_range = near_side_phi_region pi ns ∧
    (init_widths_delta_phi pi ns aw).away_side.properties_fit_range = away_side_phi_region pi aw ∧
    (init_widths_delta_eta pi ns sd).away_side.fit_obj.fit_range = near_side_phi_region pi ns ∧
    (init_widths_delta_eta pi ns sd).away_side.properties_fit_range = signal_dominated_eta_region sd :=
  ⟨rfl, rfl, rfl, rfl⟩

/-- A dict lookup for a present key returns one of the stored values. -/
theorem argValue_mem (l : List (String × ℚ)) (n : String)
    (hn : n ∈ l.map Prod.fst) : argValue l n ∈ l.map Prod.snd := by
  induction l with
  | nil => simp at hn
  | cons hd t ih =>
    by_cases hk : (hd.1 == n) = true
    · have hfind : List.find? (fun p => p.1 == n) (hd :: t) = some hd :=
        List.find?_cons_of_pos _ hk
      simp [argValue, hfind]
    · have hfind : List.find? (fun p => p.1 == n) (hd :: t) =
          List.find? (fun p => p.1 == n) t :=
        List.find?_cons_of_neg _ (by simpa using hk)
      have hnt : n ∈ t.map Prod.fst := by
        simp only [List.map_cons, List.mem_cons] at hn
        rcases hn with h | h
        · exact absurd (by simp [h]) hk
        · exact h
      have htail : argValue (hd :: t) n = argValue t n := by
        simp only [argValue, hfind]
      rw [htail]
      simp only [List.map_cons, List.mem_cons]
      exact Or.inr (ih hnt)

/-- When both the keys and the values of an association list are free
of duplicates, looking a stored value up by value finds the position of
its own key. -/
theorem indexOf_argValue (l : List (String × ℚ)) (n : String)
    (hkeys : (l.map Prod.fst).Nodup) (hvals : (l.map Prod.snd).Nodup)
    (hn : n ∈ l.map Prod.fst) :
    (l.map Prod.snd).indexOf (argValue l n) = (l.map Prod.fst).indexOf n := by
  induction l with
  | nil => simp at hn
  | cons hd t ih =>
    simp only [List.map_cons] at hkeys hvals hn ⊢
    by_cases hk : (hd.1 == n) = true
    · have hn_eq : hd.1 = n := by simpa using hk
      have hfind : List.find? (fun p => p.1 == n) (hd :: t) = some hd :=
        List.find?_cons_of_pos _ hk
      simp [argValue, hfind, ← hn_eq, List.indexOf_cons_self]
    · have hnt : n ∈ t.map Prod.fst := by
        rcases List.mem_cons.mp hn with h | h
        · exact absurd (by simp [h]) hk
        · exact h
      have hne_key : hd.1 ≠ n := fun h => hk (by simp [h])
      have hfind : List.find? (fun p => p.1 == n) (hd :: t) =
          List.find? (fun p => p.1 == n) t :=
        List.find?_cons_of_neg _ (by simpa using hk)
      have htail : argValue (hd :: t) n = argValue t n := by
        simp only [argValue, hfind]
      have hw : argValue t n ∈ t.map Prod.snd := argValue_mem t n hnt
      have hne_val : hd.2 ≠ argValue t n := by
        intro h
        exact (List.nodup_cons.mp hvals).1 (h ▸ hw)
      rw [htail, List.indexOf_cons_ne _ hne_val, List.indexOf_cons_ne _ hne_key,
        ih (List.nodup_cons.mp hkeys).2 (List.nodup_cons.mp hvals).2 hnt]

/-- C4 amended: provided the argument values (the x value and all
parameter values) are pairwise distinct, the squared quantity computed
by CalculateRPFError at an evaluation point equals the double sum over
free (non-fixed) parameter pairs of gradient component times gradient
component times covariance entry, each free parameter contributing the
gradient component at its own position; consequently the square roots
agree. Without the distinctness hypothesis this fails, because the code
locates gradient components by looking parameter values up in the
argument-value list. -/
theorem rpf_error_sums_over_free_parameters
    (names : List String) (values : String → ℚ) (isFixed : String → Bool)
    (xValue : ℚ) (grad : List ℚ) (cov : String → String → ℚ)
    (hkeys : ("x" :: names).Nodup)
    (hvals : ((GetArgsForFunc names values xValue).map Prod.snd).Nodup) :
    CalculateRPFErrorSqAtPoint names values isFixed xValue grad cov =
      specRPFErrorSqAtPoint names isFixed grad cov ∧
    Real.sqrt (CalculateRPFErrorSqAtPoint names values isFixed xValue grad cov) =
      Real.sqrt (specRPFErrorSqAtPoint names isFixed grad cov) := by
  have hkeys_eq : (GetArgsForFunc names values xValue).map Prod.fst = "x" :: names := by
    simp only [GetArgsForFunc, List.map_cons, List.map_map]
    rw [show (Prod.fst ∘ fun n : String => (n, values n)) = id from rfl, List.map_id]
  have hpos : ∀ n ∈ freeFuncArgs names isFixed,
      ((GetArgsForFunc names values xValue).map Prod.snd).indexOf
          (argValue (GetArgsForFunc names values xValue) n) =
        ("x" :: names).indexOf n := by
    intro n hnfree
    have hn_names : n ∈ names := (List.mem_filter.mp hnfree).1
    have hn_keys : n ∈ (GetArgsForFunc names values xValue).map Prod.fst := by
      rw [hkeys_eq]; exact List.mem_cons_of_mem _ hn_names
    have := indexOf_argValue (GetArgsForFunc names values xValue) n
      (by rw [hkeys_eq]; exact hkeys) hvals hn_keys
    rw [hkeys_eq] at this
    exact this
  have hmain : CalculateRPFErrorSqAtPoint names values isFixed xValue grad cov =
      specRPFErrorSqAtPoint names isFixed grad cov := by
    rw [CalculateRPFErrorSqAtPoint, specRPFErrorSqAtPoint]
    refine congrArg List.sum (List.map_congr_left ?_)
    intro iName hi
    refine congrArg List.sum (List.map_congr_left ?_)
    intro jName hj
    rw [hpos iName hi, hpos jName hj]
  exact ⟨hmain, by rw [hmain]⟩

/-- Witness for the amended C4 at a concrete input with pairwise
distinct argument values. -/
theorem rpf_error_sums_over_free_parameters_witness :
    ("x" :: ["a", "b"]).Nodup ∧
    ((GetArgsForFunc ["a", "b"] (fun n => if n == "a" then 1 else 2) 0).map Prod.snd).Nodup ∧
    CalculateRPFErrorSqAtPoint ["a", "b"] (fun n => if n == "a" then 1 else 2)
        (fun _ => false) 0 [5, 2, 3] (fun i j => if i == j then 1 else 0) =
      specRPFErrorSqAtPoint ["a", "b"] (fun _ => false) [5, 2, 3]
        (fun i j => if i == j then 1 else 0) := by
  have h1 : ("x" :: ["a", "b"]).Nodup := by decide
  have h2 : ((GetArgsForFunc ["a", "b"] (fun n => if n == "a" then 1 else 2) 0).map
      Prod.snd).Nodup := by
    simp [GetArgsForFunc]
  exact ⟨h1, h2,
    (rpf_error_sums_over_free_parameters ["a", "b"] (fun n => if n == "a" then 1 else 2)
      (fun _ => false) 0 [5, 2, 3] (fun i j => if i == j then 1 else 0) h1 h2).1⟩

/-- Counterexample to C4 as stated: with two free parameters holding
the same fitted value (a = b = 1), the value-based index lookup uses
the gradient component of the first matching argument for both
parameters, so the computed squared error (8) differs from the double
sum the claim states (13). -/
theorem rpf_error_value_lookup_counterexample :
    CalculateRPFErrorSqAtPoint ["a", "b"] (fun _ => 1) (fun _ => false) 0 [5, 2, 3]
        (fun i j => if i == j then 1 else 0) = 8 ∧
    specRPFErrorSqAtPoint ["a", "b"] (fun _ => false) [5, 2, 3]
        (fun i j => if i == j then 1 else 0) = 13 ∧
    CalculateRPFErrorSqAtPoint ["a", "b"] (fun _ => 1) (fun _ => false) 0 [5, 2, 3]
        (fun i j => if i == j then 1 else 0) ≠
      specRPFErrorSqAtPoint ["a", "b"] (fun _ => false) [5, 2, 3]
        (fun i j => if i == j then 1 else 0) := by
  have hargs : GetArgsForFunc ["a", "b"] (fun _ => (1 : ℚ)) 0 =
      [("x", 0), ("a", 1), ("b", 1)] := by
    simp [GetArgsForFunc]
  have hfree : freeFuncArgs ["a", "b"] (fun _ => false) = ["a", "b"] := by
    simp [freeFuncArgs]
  have hvalA : argValue [("x", (0 : ℚ)), ("a", 1), ("b", 1)] "a" = 1 := by
    rw [argValue, List.find?_cons_of_neg _ (by decide),
      List.find?_cons_of_pos _ (by decide)]
    rfl
  have hvalB : argValue [("x", (0 : ℚ)), ("a", 1), ("b", 1)] "b" = 1 := by
    rw [argValue, List.find?_cons_of_neg _ (by decide),
      List.find?_cons_of_neg _ (by decide), List.find?_cons_of_pos _ (by decide)]
    rfl
  have hidx : List.indexOf (1 : ℚ) [0, 1, 1] = 1 := by
    rw [List.indexOf_cons_ne _ (by norm_num), List.indexOf_cons_self]
  have hA : CalculateRPFErrorSqAtPoint ["a", "b"] (fun _ => 1) (fun _ => false) 0 [5, 2, 3]
      (fun i j => if i == j then 1 else 0) = 8 := by
    simp only [CalculateRPFErrorSqAtPoint, hargs, hfree, List.map_cons, List.map_nil,
      hvalA, hvalB, hidx]
    simp only [List.getD]
    simp
    norm_num
  have hB : specRPFErrorSqAtPoint ["a", "b"] (fun _ => false) [5, 2, 3]
      (fun i j => if i == j then 1 else 0) = 13 := by
    have hia : List.indexOf "a" ["x", "a", "b"] = 1 := by decide
    have hib : List.indexOf "b" ["x", "a", "b"] = 2 := by decide
    simp only [specRPFErrorSqAtPoint, hfree, List.map_cons, List.map_nil, hia, hib]
    simp only [List.getD]
    simp
    norm_num
  refine ⟨hA, hB, ?_⟩
  rw [hA, hB]
  norm_num

end JetHadron
